import Mathlib

/-!
Verification development for the Client_FM polling radio client.

The Python sources (`clinet/main.py`, `clinet/cli.py`, `clinet/tts.py`,
`clinet/state.py`, `clinet/ytdlp_player.py`, `mysql_client.py`) are shallowly
embedded below.  Database queries, subprocess players, the yt-dlp resolver and
wall-clock time are external effects: they enter the model as explicit inputs
(`Except`-valued fetch results, per-tick environments, probe answers), and the
observable actions of an operation are recorded in an event trace.  Python's
keyword-argument binding is modelled explicitly, because two call sites in the
repository pass keywords their callees do not declare.
-/

/-- Python runtime errors that the embedded code can raise. -/
inductive PyErr where
  | typeError
  | dbError
  | valueError (msg : String)
deriving DecidableEq, Repr

/-- Python keyword-argument binding: a call binds only if every passed keyword
is among the callee's declared keyword parameters; otherwise the interpreter
raises `TypeError` before the callee body runs. -/
def kwargsBind (declared passed : List String) : Bool :=
  passed.all (fun k => declared.contains k)

/-- Model of `mysql_client.MusicRow`. -/
structure MusicRow where
  id : Int
  name : String
  link : String
  duration_seconds : Option Int
deriving DecidableEq, Repr

/-- Model of `mysql_client.AlertRow`. -/
structure AlertRow where
  id : Int
  message : String
  severity : String
deriving DecidableEq, Repr

/-- Model of `state.ClientState`: the single durable record. -/
structure ClientState where
  last_music_id : Int
  last_music_link : String
  last_ai_alert_id : Int
  last_user_alert_id : Int
deriving DecidableEq, Repr

/-- Characters Python's `str.strip()` / `str.split()` treat as whitespace. -/
def pyIsSpace (c : Char) : Bool :=
  c == ' ' || c == '\t' || c == '\n' || c == '\r' ||
  c.toNat == 0x0b || c.toNat == 0x0c ||
  (0x1c ≤ c.toNat && c.toNat ≤ 0x1f) ||
  c.toNat == 0x85 || c.toNat == 0xa0 || c.toNat == 0x1680 ||
  (0x2000 ≤ c.toNat && c.toNat ≤ 0x200a) ||
  c.toNat == 0x2028 || c.toNat == 0x2029 || c.toNat == 0x202f ||
  c.toNat == 0x205f || c.toNat == 0x3000

/-- Python `str.strip()` (no argument): drop whitespace at both ends. -/
def pyStrip (s : String) : String :=
  String.mk (((s.data.dropWhile pyIsSpace).reverse.dropWhile pyIsSpace).reverse)

/-- Worker for `pyWords`: accumulate the current word (reversed) while
scanning; whitespace runs separate words, empty pieces are dropped, exactly
like Python's `str.split()` with no argument. -/
def pyWordsAux (cur : List Char) : List Char → List (List Char)
  | [] => if cur.isEmpty then [] else [cur.reverse]
  | c :: cs =>
    if pyIsSpace c then
      if cur.isEmpty then pyWordsAux [] cs else cur.reverse :: pyWordsAux [] cs
    else pyWordsAux (c :: cur) cs

/-- Python `str.split()` with no argument. -/
def pyWords (s : String) : List String :=
  (pyWordsAux [] s.data).map String.mk

/-- Python `" ".join(words)`. -/
def joinSpace : List String → String
  | [] => ""
  | [w] => w
  | w :: ws => w ++ " " ++ joinSpace ws

/-- Python `" ".join(str(text).strip().split())`: whitespace normalisation used by
`tts.generate_voice_from_text` and `FMClient._has_speakable_text`. -/
def pyNormWs (s : String) : String :=
  joinSpace (pyWords (pyStrip s))

/-- Characters removed by the regex `[​-‏‪-‮]`. -/
def isZwMarker (c : Char) : Bool :=
  (0x200b ≤ c.toNat && c.toNat ≤ 0x200f) || (0x202a ≤ c.toNat && c.toNat ≤ 0x202e)

/-- Remove zero-width / direction-control markers. -/
def stripZwMarkers (s : String) : String :=
  String.mk (s.data.filter (fun c => ! isZwMarker c))

/-- The cleaning pipeline of `tts.generate_voice_from_text`: whitespace
normalisation followed by marker stripping. -/
def cleanedText (s : String) : String := stripZwMarkers (pyNormWs s)

/-- Helper `startsWithB p s`: does `s` start with `p`? -/
def startsWithB : List Char → List Char → Bool
  | [], _ => true
  | _ :: _, [] => false
  | p :: ps, c :: cs => (p == c) && startsWithB ps cs

/-- Worker for substring containment (Python's `in` on strings). -/
def hasSubstrAux (pat : List Char) : List Char → Bool
  | [] => startsWithB pat []
  | c :: cs => startsWithB pat (c :: cs) || hasSubstrAux pat cs

/-- Python `pat in s` for strings. -/
def strContainsSub (s pat : String) : Bool := hasSubstrAux pat.data s.data

/-- Python `str.lower()` (ASCII case folding suffices for the literals the
client compares against). -/
def pyLower (s : String) : String := String.mk (s.data.map Char.toLower)

/-- Model of `tts.detect_language`: scan for any character in the Malayalam block. -/
def isMalayalamChar (c : Char) : Bool := 0x0D00 ≤ c.toNat && c.toNat ≤ 0x0D7F

/-- Model of `tts.detect_language`. -/
def detect_language (text : String) : String :=
  if text.data.any isMalayalamChar then "ml" else "en"

/-- Metadata returned by `tts.generate_voice_from_text`. -/
structure TtsAudio where
  file : String
  lang : String
  text : String
  engine : String
deriving DecidableEq, Repr

/-- Model of `tts.generate_voice_from_text`.  `out_path` stands for the fresh path
handed out by `tempfile.mkstemp`; the gTTS network call is abstracted as
producing the artifact at that path.  The guarded error branch is exactly the
source's `raise ValueError("text is empty")`. -/
def generate_voice_from_text (text lang out_path : String) : Except String TtsAudio :=
  let cleaned := cleanedText text
  if cleaned = "" then Except.error "text is empty"
  else Except.ok { file := out_path, lang := lang, text := cleaned, engine := "gTTS" }

example : detect_language "hello" = "en" := by decide
example : cleanedText "  a   b  " = "a b" := by decide
example : pyWords " a  b " = ["a", "b"] := by decide

/-- Model of `FMClient._same_music` (main.py lines 140-146): same track means equal
trimmed link and equal id; `None` equals only `None`. -/
def FMClient.same_music (a b : Option MusicRow) : Bool :=
  match a, b with
  | none, none => true
  | none, some _ => false
  | some _, none => false
  | some x, some y => (pyStrip x.link == pyStrip y.link) && (x.id == y.id)

/-- Model of `FMClient._has_speakable_text` (main.py lines 276-284). -/
def FMClient.has_speakable_text (msg : String) : Bool :=
  let s := pyNormWs msg
  if s = "" then false
  else pyStrip (stripZwMarkers s) != ""

/-- Model of `FMClient._should_ack_failed_tts` (main.py lines 286-293). -/
def FMClient.should_ack_failed_tts (err_msg : String) : Bool :=
  let m := pyLower err_msg
  strContainsSub m "no text to send" || strContainsSub m "no speakable text" ||
    strContainsSub m "text is empty"

/-- Model of `FMClient._validate_state` (main.py lines 193-205): the max-id query's
outcome is passed explicitly; any raised error is swallowed by the bare
`except`.  Returns the (possibly corrected) state and whether `save_state`
ran. -/
def FMClient.validate_state (maxIdResult : Except PyErr Int) (st : ClientState) :
    ClientState × Bool :=
  match maxIdResult with
  | Except.error _ => (st, false)
  | Except.ok m =>
    if st.last_music_id > m then
      ({ st with last_music_id := 0, last_music_link := "" }, true)
    else (st, false)

/-- Observable actions of the client, recorded in order. -/
inductive Ev where
  | probeDuration (link : String)
  | startAttempt (link : String) (volume : Int) (kwargs : List String) (position : Int)
  | playerStart (link : String) (volume : Int)
  | playerStop
  | speak (msg : String) (spoken : Nat)
  | ackUser (id : Int)
  | ackAi (id : Int)
  | saveState (st : ClientState)
deriving DecidableEq, Repr

/-- Is the event an executed `StreamPlayer.start` (playback actually started)? -/
def isPlayerStartEv : Ev → Bool
  | Ev.playerStart _ _ => true
  | _ => false

/-- Is the event a call issued to `StreamPlayer.start` at a call site
(whether or not keyword binding succeeded)? -/
def isStartAttempt : Ev → Bool
  | Ev.startAttempt _ _ _ _ => true
  | _ => false

/-- Does the trace contain an executed playback start? -/
def hasPlayerStart (evs : List Ev) : Bool := evs.any isPlayerStartEv

/-- Keyword parameters declared by `StreamPlayer.start` (ytdlp_player.py line
99): only `volume` — there is no `position` parameter. -/
def StreamPlayer.startKwargs : List String := ["volume"]

/-- Keywords passed at every `self.player.start(...)` call site inside
`FMClient.play_music` (main.py lines 541, 569, 598, 605, 622, 631). -/
def playMusicStartCallKwargs : List String := ["volume", "position"]

/-- A `self.player.start(link, volume=v, position=p)` call from `play_music`:
the attempt is recorded; if keyword binding succeeds the operation runs and a
`playerStart` event follows, otherwise `TypeError` is raised and the callee
body never executes. -/
def playerStartCall (link : String) (v p : Int) : List Ev × Except PyErr Unit :=
  if kwargsBind StreamPlayer.startKwargs playMusicStartCallKwargs then
    ([Ev.startAttempt link v playMusicStartCallKwargs p, Ev.playerStart link v], Except.ok ())
  else
    ([Ev.startAttempt link v playMusicStartCallKwargs p], Except.error PyErr.typeError)

/-- Constant `self.music_volume_normal` (main.py line 110). -/
def music_volume_normal : Int := 100

/-- Constant `self.music_volume_ducked` (main.py line 111). -/
def music_volume_ducked : Int := 10

/-- Model of `play_music._resolve_duration` (main.py lines 524-530): prefer the row
duration; when absent call `get_media_duration_seconds` (its answer is the
`probe` input, `none` for unknown/live/error) and record the probe; fall back
to the configured default only when `music_id <= 0` (sequential mode). -/
def FMClient.resolve_duration (music_id default_duration : Int) (m : MusicRow)
    (probe : Option Int) : Option Int × List Ev :=
  match m.duration_seconds with
  | some d => (some d, [])
  | none =>
    match probe with
    | some d => (some d, [Ev.probeDuration m.link])
    | none =>
      ((if music_id ≤ 0 then some default_duration else none), [Ev.probeDuration m.link])

example : FMClient.same_music (some ⟨1, "a", " x ", none⟩) (some ⟨1, "b", "x", some 3⟩) = true := by
  decide
example : FMClient.has_speakable_text " ​ " = false := by decide
example : FMClient.should_ack_failed_tts "AI alert has no speakable text" = true := by decide
example : FMClient.resolve_duration 1 180 ⟨1, "n", "L1", none⟩ none = (none, [Ev.probeDuration "L1"]) := by
  decide

/-- The local variables of `FMClient.play_music` that survive across loop
iterations, together with the mutable client fields it touches. -/
structure PlayLoopSt where
  music : MusicRow
  planned : Option Int
  resume_position : Int
  started_at : Int
  current : Option MusicRow
  state : ClientState
deriving DecidableEq, Repr

/-- External inputs consumed by one iteration of the `play_music` while loop:
the wall clock, the status gate, the consumed music-change cell, the yt-dlp
probe answer for a switched track, the alert fetches and the segment counts
the speak calls would report. -/
structure TickEnv where
  now : Int
  audio_allowed : Bool
  music_change : Option MusicRow
  probe : Option Int
  user_alert : Option AlertRow
  user_speak : Nat
  ai_fixed : Option AlertRow
  ai_fixed_speak : Nat
  ai_wm : Option AlertRow
  ai_wm_speak : Nat
deriving DecidableEq, Repr

/-- Outcome of one loop iteration: `ret` (the `return` on gate-off),
`finished` (the `break` on duration expiry), `next` (fall through to
`time.sleep(0.5)` and iterate), `raised` (an uncaught exception escapes
`play_music`). -/
inductive TickRes where
  | ret (ls : PlayLoopSt) (evs : List Ev)
  | finished (ls : PlayLoopSt) (evs : List Ev)
  | next (ls : PlayLoopSt) (evs : List Ev)
  | raised (e : PyErr) (ls : PlayLoopSt) (evs : List Ev)
deriving DecidableEq, Repr

/-- Watermark AI-alert branch of the loop (main.py lines 625-652): duck by
restarting at low volume, speak, acknowledge and persist the watermark (also
on a content-classified failure), then restore normal volume in `finally`. -/
def FMClient.play_tick_ai_wm (env : TickEnv) (ls : PlayLoopSt) (evs : List Ev) : TickRes :=
  match env.ai_wm with
  | some a =>
    if a.id > 0 then
      let c1 := playerStartCall ls.music.link music_volume_ducked ls.resume_position
      match c1.2 with
      | Except.error e => TickRes.raised e ls (evs ++ c1.1)
      | Except.ok _ =>
        let spoken := env.ai_wm_speak
        let stAck := { ls.state with last_ai_alert_id := a.id }
        let accept :=
          if spoken ≤ 0 then
            (! FMClient.has_speakable_text a.message) ||
              FMClient.should_ack_failed_tts "AI alert has no speakable text"
          else true
        let ls1 := if accept then { ls with state := stAck } else ls
        let ackEvs := if accept then [Ev.ackAi a.id, Ev.saveState stAck] else []
        let c2 := playerStartCall ls1.music.link music_volume_normal ls1.resume_position
        match c2.2 with
        | Except.error e =>
          TickRes.raised e ls1 (evs ++ c1.1 ++ [Ev.speak a.message spoken] ++ ackEvs ++ c2.1)
        | Except.ok _ =>
          TickRes.next ls1 (evs ++ c1.1 ++ [Ev.speak a.message spoken] ++ ackEvs ++ c2.1)
    else TickRes.next ls evs
  | none => TickRes.next ls evs

/-- Fixed-slot (id=1) AI-alert branch of the loop (main.py lines 601-623):
like the watermark branch but without advancing or persisting the watermark,
and with `started_at` reset afterwards. -/
def FMClient.play_tick_ai_fixed (env : TickEnv) (ls : PlayLoopSt) (evs : List Ev) : TickRes :=
  match env.ai_fixed with
  | some a =>
    if a.id == 1 && pyStrip a.message != "" then
      let c1 := playerStartCall ls.music.link music_volume_ducked ls.resume_position
      match c1.2 with
      | Except.error e => TickRes.raised e ls (evs ++ c1.1)
      | Except.ok _ =>
        let spoken := env.ai_fixed_speak
        let accept :=
          if spoken ≤ 0 then
            (! FMClient.has_speakable_text a.message) ||
              FMClient.should_ack_failed_tts "AI alert has no speakable text"
          else true
        let ackEvs := if accept then [Ev.ackAi a.id] else []
        let c2 := playerStartCall ls.music.link music_volume_normal ls.resume_position
        match c2.2 with
        | Except.error e =>
          TickRes.raised e ls (evs ++ c1.1 ++ [Ev.speak a.message spoken] ++ ackEvs ++ c2.1)
        | Except.ok _ =>
          FMClient.play_tick_ai_wm env { ls with started_at := env.now }
            (evs ++ c1.1 ++ [Ev.speak a.message spoken] ++ ackEvs ++ c2.1)
    else FMClient.play_tick_ai_wm env ls evs
  | none => FMClient.play_tick_ai_wm env ls evs

/-- User-alert branch of the loop (main.py lines 579-599): stop playback,
record the resume position (elapsed time so far), speak, acknowledge, then
restart the track at that resume position — a call that passes the undeclared
`position` keyword. -/
def FMClient.play_tick_user (env : TickEnv) (ls : PlayLoopSt) (evs : List Ev) : TickRes :=
  match env.user_alert with
  | some a =>
    if a.id == 1 && pyStrip a.message != "" then
      let resume1 := env.now - ls.started_at + ls.resume_position
      let evs1 := evs ++ [Ev.playerStop, Ev.speak a.message env.user_speak, Ev.ackUser a.id]
      let c := playerStartCall ls.music.link music_volume_normal resume1
      match c.2 with
      | Except.error e =>
        TickRes.raised e { ls with resume_position := resume1 } (evs1 ++ c.1)
      | Except.ok _ =>
        FMClient.play_tick_ai_fixed env
          { ls with resume_position := resume1, started_at := env.now } (evs1 ++ c.1)
    else FMClient.play_tick_ai_fixed env ls evs
  | none => FMClient.play_tick_ai_fixed env ls evs

/-- Duration-expiry check (main.py lines 574-577): when a planned duration is
known and elapsed time reached it, stop and break. -/
def FMClient.play_tick_expiry (env : TickEnv) (ls : PlayLoopSt) (evs : List Ev) : TickRes :=
  let elapsed := env.now - ls.started_at + ls.resume_position
  match ls.planned with
  | some p =>
    if elapsed ≥ p then TickRes.finished ls (evs ++ [Ev.playerStop])
    else FMClient.play_tick_user env ls evs
  | none => FMClient.play_tick_user env ls evs

/-- One iteration of the `play_music` while loop (main.py lines 549-654):
gate check, music-change switch, expiry, then the three alert branches. -/
def FMClient.play_tick (music_id default_duration : Int) (env : TickEnv) (ls : PlayLoopSt) :
    TickRes :=
  if ! env.audio_allowed then
    TickRes.ret ls [Ev.playerStop]
  else
    match env.music_change with
    | some d =>
      if (! FMClient.same_music (some d) (some ls.music)) && (d.link != "") then
        let rd := FMClient.resolve_duration music_id default_duration d env.probe
        let c := playerStartCall d.link music_volume_normal 0
        match c.2 with
        | Except.error e => TickRes.raised e ls (rd.2 ++ c.1)
        | Except.ok _ =>
          FMClient.play_tick_expiry env
            { ls with music := d, planned := rd.1, resume_position := 0,
                      started_at := env.now, current := some d } (rd.2 ++ c.1)
      else FMClient.play_tick_expiry env ls []
    | none => FMClient.play_tick_expiry env ls []

/-- How an embedded `play_music` invocation ended. -/
inductive PMExit where
  | raised (e : PyErr)
  | completed
  | fuelOut
deriving DecidableEq, Repr

/-- Result of an embedded `play_music` invocation: how it exited, the client
state and `_current_music` afterwards, and the event trace. -/
structure PMResult where
  exitKind : PMExit
  state : ClientState
  current : Option MusicRow
  events : List Ev
deriving DecidableEq, Repr

/-- Drive the `play_music` loop, one `TickEnv` per iteration; an exhausted
environment list models observing the still-running loop.  On a normal
`break` the watermark advance of main.py lines 656-658 runs. -/
def FMClient.play_loop (music_id default_duration : Int) (envs : List TickEnv)
    (ls : PlayLoopSt) : PMResult :=
  match envs with
  | [] => ⟨PMExit.fuelOut, ls.state, ls.current, []⟩
  | e :: rest =>
    match FMClient.play_tick music_id default_duration e ls with
    | TickRes.ret ls' evs => ⟨PMExit.completed, ls'.state, ls'.current, evs⟩
    | TickRes.raised err ls' evs => ⟨PMExit.raised err, ls'.state, ls'.current, evs⟩
    | TickRes.finished ls' evs =>
      let st' := { ls'.state with last_music_id := ls'.music.id,
                                  last_music_link := ls'.music.link }
      ⟨PMExit.completed, st', ls'.current, evs ++ [Ev.saveState st']⟩
    | TickRes.next ls' evs =>
      let r := FMClient.play_loop music_id default_duration rest ls'
      ⟨r.exitKind, r.state, r.current, evs ++ r.events⟩

/-- Model of `FMClient.play_music` (main.py lines 523-658).  `current` is the
`_current_music` attribute (`none` when the attribute was never set),
`entry_probe` the yt-dlp answer for the initial duration resolution,
`entry_now` the clock at entry, and `envs` the per-iteration inputs.  When the
item differs from `current` the entry start call passes `position`, which
`StreamPlayer.start` does not declare. -/
def FMClient.play_music (music_id default_duration : Int) (entry_probe : Option Int)
    (entry_now : Int) (current : Option MusicRow) (st : ClientState) (music : MusicRow)
    (envs : List TickEnv) : PMResult :=
  let rd := FMClient.resolve_duration music_id default_duration music entry_probe
  if current.isNone || ! FMClient.same_music current (some music) then
    let c := playerStartCall music.link music_volume_normal 0
    match c.2 with
    | Except.error e => ⟨PMExit.raised e, st, current, rd.2 ++ c.1⟩
    | Except.ok _ =>
      let r := FMClient.play_loop music_id default_duration envs
        ⟨music, rd.1, 0, entry_now, some music, st⟩
      ⟨r.exitKind, r.state, r.current, rd.2 ++ c.1 ++ r.events⟩
  else
    let r := FMClient.play_loop music_id default_duration envs
      ⟨music, rd.1, 0, entry_now - 0, current, st⟩
    ⟨r.exitKind, r.state, r.current, rd.2 ++ r.events⟩

/-- Second half of `FMClient.handle_user_alerts` (main.py lines 458-477): the
fixed-slot AI alert check.  The speak call is modelled by its returned segment
count; a zero count raises `ValueError("AI alert has no speakable text")`,
caught by the handler, which then force-acknowledges on a content-classified
failure. -/
def FMClient.handle_user_alerts_ai (fetchAiFixed : Except PyErr (Option AlertRow))
    (aiSpeak : Nat) : Except PyErr (Bool × List Ev) :=
  match fetchAiFixed with
  | Except.error e => Except.error e
  | Except.ok none => Except.ok (false, [])
  | Except.ok (some a) =>
    if a.id == 1 && pyStrip a.message != "" then
      let accept :=
        if aiSpeak ≤ 0 then
          (! FMClient.has_speakable_text a.message) ||
            FMClient.should_ack_failed_tts "AI alert has no speakable text"
        else true
      let ackEvs := if accept then [Ev.ackAi a.id] else []
      Except.ok (true, [Ev.speak a.message aiSpeak] ++ ackEvs)
    else Except.ok (false, [])

/-- Model of `FMClient.handle_user_alerts` (main.py lines 444-477).  The alert fetches
are DB calls whose outcome is passed in; note they are NOT wrapped in any
`try`, so a raising fetch propagates to the caller. -/
def FMClient.handle_user_alerts (fetchUser : Except PyErr (Option AlertRow))
    (userSpeak : Nat) (fetchAiFixed : Except PyErr (Option AlertRow)) (aiSpeak : Nat) :
    Except PyErr (Bool × List Ev) :=
  match fetchUser with
  | Except.error e => Except.error e
  | Except.ok ua =>
    match ua with
    | some a =>
      if a.id == 1 && pyStrip a.message != "" then
        Except.ok (true, [Ev.speak a.message userSpeak, Ev.ackUser a.id])
      else FMClient.handle_user_alerts_ai fetchAiFixed aiSpeak
    | none => FMClient.handle_user_alerts_ai fetchAiFixed aiSpeak

/-- Model of `FMClient.handle_ai_alerts` (main.py lines 479-503), the watermark-based
handler: fetch the next AI alert after `last_ai_alert_id`; speak; on success
(or on a content-classified failure, which the string check accepts)
acknowledge the row, advance the watermark to the alert id and persist it.
The acknowledge call's boolean result only affects logging and is omitted. -/
def FMClient.handle_ai_alerts (fetch : Except PyErr (Option AlertRow)) (spoken : Nat)
    (st : ClientState) : Except PyErr (ClientState × Bool × List Ev) :=
  match fetch with
  | Except.error e => Except.error e
  | Except.ok none => Except.ok (st, false, [])
  | Except.ok (some a) =>
    if a.id > 0 then
      if spoken ≤ 0 then
        if (! FMClient.has_speakable_text a.message) ||
            FMClient.should_ack_failed_tts "AI alert has no speakable text" then
          let st1 := { st with last_ai_alert_id := a.id }
          Except.ok (st1, false, [Ev.speak a.message 0, Ev.ackAi a.id, Ev.saveState st1])
        else Except.ok (st, false, [Ev.speak a.message 0])
      else
        let st1 := { st with last_ai_alert_id := a.id }
        Except.ok (st1, true, [Ev.speak a.message spoken, Ev.ackAi a.id, Ev.saveState st1])
    else Except.ok (st, false, [])

/-- External inputs consumed by one iteration of `FMClient.run`'s while loop. -/
structure RunEnv where
  audio_allowed : Bool
  fetch_user : Except PyErr (Option AlertRow)
  user_speak : Nat
  fetch_ai_fixed : Except PyErr (Option AlertRow)
  ai_fixed_speak : Nat
  fetch_ai_wm : Except PyErr (Option AlertRow)
  ai_wm_speak : Nat
  desired_music : Option MusicRow
  music_by_id : Except PyErr (Option MusicRow)
  next_music : Except PyErr (Option MusicRow)
  latest_music : Except PyErr (Option MusicRow)
  entry_probe : Option Int
  entry_now : Int
  play_envs : List TickEnv
deriving Repr

/-- The client fields the run loop reads and writes across iterations. -/
structure RunSt where
  current : Option MusicRow
  state : ClientState
deriving DecidableEq, Repr

/-- Model of `FMClient.get_next_music` (main.py lines 508-521): the primary watermark
fetch is NOT guarded (a raise propagates); only the latest-row fallback sits
in a `try`. -/
def FMClient.get_next_music (env : RunEnv) (st : ClientState) :
    Except PyErr (Option MusicRow) :=
  match env.next_music with
  | Except.error e => Except.error e
  | Except.ok (some m) => Except.ok (some m)
  | Except.ok none =>
    match env.latest_music with
    | Except.error _ => Except.ok none
    | Except.ok none => Except.ok none
    | Except.ok (some latest) =>
      if latest.id == st.last_music_id && latest.link != st.last_music_link then
        Except.ok (some latest)
      else Except.ok none

/-- One iteration of `FMClient.run`'s while loop (main.py lines 668-693).
The loop body sits inside `try ... except KeyboardInterrupt` only, so any
`Except.error` produced here models an exception that terminates the loop and
the process.  The `play_music` call alone is wrapped in
`except Exception` (lines 688-691), so its raising is absorbed. -/
def FMClient.run_tick (music_id default_duration : Int) (env : RunEnv) (rs : RunSt) :
    Except PyErr (RunSt × List Ev) :=
  if ! env.audio_allowed then
    Except.ok (rs, [Ev.playerStop])
  else
    match FMClient.handle_user_alerts env.fetch_user env.user_speak env.fetch_ai_fixed
        env.ai_fixed_speak with
    | Except.error e => Except.error e
    | Except.ok (_, evs1) =>
      match FMClient.handle_ai_alerts env.fetch_ai_wm env.ai_wm_speak rs.state with
      | Except.error e => Except.error e
      | Except.ok (st1, _, evs2) =>
        let pick : Except PyErr (Option MusicRow) :=
          if music_id > 0 then
            match env.desired_music with
            | some m => Except.ok (some m)
            | none => env.music_by_id
          else Except.ok none
        match pick with
        | Except.error e => Except.error e
        | Except.ok m0 =>
          let pick2 : Except PyErr (Option MusicRow) :=
            match m0 with
            | some m => Except.ok (some m)
            | none => FMClient.get_next_music env st1
          match pick2 with
          | Except.error e => Except.error e
          | Except.ok none => Except.ok (⟨rs.current, st1⟩, evs1 ++ evs2)
          | Except.ok (some m) =>
            if m.id > 0 && m.link != "" then
              let r := FMClient.play_music music_id default_duration env.entry_probe
                env.entry_now rs.current st1 m env.play_envs
              Except.ok (⟨r.current, r.state⟩, evs1 ++ evs2 ++ r.events)
            else Except.ok (⟨rs.current, st1⟩, evs1 ++ evs2)

/-- The parsed argument record produced by `cli.build_parser`; parsing itself
is an external collaborator (spec section 6), so claims about `cli.main`
quantify over the parsed vector. -/
structure CliArgs where
  state : String
  poll : Int
  default_duration : Int
  music_id : Int
  music_watch_interval : Int
  status_watch_interval : Int
  alert_check_interval : Int
  no_tts : Bool
  no_duration_detect : Bool
  mysql_host : String
  mysql_port : Int
  mysql_user : String
  mysql_password : String
  mysql_database : String
  mysql_timeout : Int
  mysql_pool_size : Int
deriving Repr

/-- Keyword parameters declared by `FMClient.__init__` (main.py lines 51-64). -/
def FMClient.initKwargs : List String :=
  ["mysql_host", "mysql_port", "mysql_user", "mysql_password", "mysql_database",
   "mysql_timeout", "state_path", "poll_interval", "default_duration", "music_id",
   "music_watch_interval"]

/-- Keywords passed by `cli.main`'s `FMClient(...)` construction (cli.py lines
50-67); the names are fixed by the call site, independent of argument values. -/
def cliMainKwargs : List String :=
  ["mysql_host", "mysql_port", "mysql_user", "mysql_password", "mysql_database",
   "mysql_timeout", "mysql_pool_size", "state_path", "poll_interval",
   "default_duration", "music_id", "music_watch_interval", "status_watch_interval",
   "alert_check_interval", "enable_tts", "enable_duration_detect"]

/-- Reached only if `cli.main` gets as far as `client.run()`. -/
inductive CliOutcome where
  | clientLoopStarted
deriving DecidableEq, Repr

/-- Model of `cli.main` (cli.py lines 46-69) after argument parsing: construct
`FMClient` with the call site's keywords, then run the loop.  Binding is
decided by the keyword names alone, so the argument values are irrelevant. -/
def cli_main (_args : CliArgs) : Except PyErr CliOutcome :=
  if kwargsBind FMClient.initKwargs cliMainKwargs then Except.ok CliOutcome.clientLoopStarted
  else Except.error PyErr.typeError

/-- Every `player.start` call issued from `play_music` passes the `position`
keyword, which `StreamPlayer.start` does not declare, so binding fails: the
attempt is recorded and `TypeError` is raised without the operation running. -/
theorem playerStartCall_err (link : String) (v p : Int) :
    playerStartCall link v p =
      ([Ev.startAttempt link v playMusicStartCallKwargs p], Except.error PyErr.typeError) := by
  have h : kwargsBind StreamPlayer.startKwargs playMusicStartCallKwargs = false := by decide
  simp [playerStartCall, h]

/-- Duration resolution emits only probe events: no playback start and no
start attempt can originate from `_resolve_duration`. -/
theorem resolve_duration_trace (music_id default_duration : Int) (m : MusicRow)
    (probe : Option Int) :
    hasPlayerStart (FMClient.resolve_duration music_id default_duration m probe).2 = false ∧
    (FMClient.resolve_duration music_id default_duration m probe).2.any isStartAttempt
      = false := by
  unfold FMClient.resolve_duration
  cases m.duration_seconds <;> cases probe <;>
    simp [hasPlayerStart, isPlayerStartEv, isStartAttempt]

/-- Fixture: a fresh client state. -/
def st0 : ClientState := ⟨0, "", 0, 0⟩

/-- Fixture: the fixed-row music item with an unknown duration. -/
def row1 : MusicRow := ⟨1, "song", "L1", none⟩

/-- C9: for present pairs the same-track predicate holds iff the ids are equal
and the links are equal after trimming; `same(None, None)` is true; `same` of
`None` against any present reference (on either side) is false. -/
theorem same_music_characterization :
    (∀ x y : MusicRow,
      FMClient.same_music (some x) (some y) = true ↔
        (x.id = y.id ∧ pyStrip x.link = pyStrip y.link)) ∧
    FMClient.same_music none none = true ∧
    (∀ x : MusicRow, FMClient.same_music none (some x) = false) ∧
    (∀ x : MusicRow, FMClient.same_music (some x) none = false) := by
  refine ⟨fun x y => ?_, rfl, fun x => rfl, fun x => rfl⟩
  simp [FMClient.same_music, Bool.and_eq_true, beq_iff_eq, and_comm]

/-- Witness for C9 at a concrete pair. -/
theorem same_music_characterization_witness :
    FMClient.same_music (some row1) (some row1) = true :=
  (same_music_characterization.1 row1 row1).mpr ⟨rfl, rfl⟩

/-- C10: a message with any character in U+0D00-U+0D7F is classified "ml"; a
message with none is classified "en" (the default); an input that is empty
after whitespace normalisation and zero-width/direction-marker stripping makes
speech generation fail with the content-classified error "text is empty". -/
theorem tts_language_and_empty_text :
    (∀ s : String, (∃ c ∈ s.data, isMalayalamChar c = true) → detect_language s = "ml") ∧
    (∀ s : String, (∀ c ∈ s.data, isMalayalamChar c = false) → detect_language s = "en") ∧
    (∀ s lang out_path : String, cleanedText s = "" →
      generate_voice_from_text s lang out_path = Except.error "text is empty") := by
  refine ⟨fun s hs => ?_, fun s hs => ?_, fun s lang out_path h => ?_⟩
  · unfold detect_language
    rw [if_pos]
    exact List.any_eq_true.mpr hs
  · unfold detect_language
    rw [if_neg]
    intro hany
    obtain ⟨c, hc, hm⟩ := List.any_eq_true.mp hany
    rw [hs c hc] at hm
    exact Bool.false_ne_true hm
  · unfold generate_voice_from_text
    simp [h]

/-- Witness for C10 on concrete strings (Malayalam letter A, plain ASCII, and
a lone zero-width space). -/
theorem tts_language_and_empty_text_witness :
    detect_language "അ" = "ml" ∧ detect_language "hi" = "en" ∧
    generate_voice_from_text "​" "en" "alert_0.mp3" = Except.error "text is empty" :=
  ⟨tts_language_and_empty_text.1 "അ" (by decide),
   tts_language_and_empty_text.2.1 "hi" (by decide),
   tts_language_and_empty_text.2.2 "​" "en" "alert_0.mp3" (by decide)⟩

/-- C8: when the max-id query succeeds with value `m` and the persisted
`last_music_id` exceeds `m`, startup validation resets the watermark to 0 and
the link to the empty string, persists the corrected record, and the invariant
`last_music_id ≤ m` is re-established (the query value is non-negative because
of the `COALESCE(MAX(id), 0)` in `get_music_max_id`). -/
theorem validate_state_resets_watermark (st : ClientState) (m : Int)
    (h : st.last_music_id > m) :
    FMClient.validate_state (Except.ok m) st =
      ({ st with last_music_id := 0, last_music_link := "" }, true) ∧
    (FMClient.validate_state (Except.ok m) st).1.last_music_id = 0 ∧
    (FMClient.validate_state (Except.ok m) st).1.last_music_link = "" ∧
    (0 ≤ m → (FMClient.validate_state (Except.ok m) st).1.last_music_id ≤ m) := by
  simp only [FMClient.validate_state]
  rw [if_pos h]
  exact ⟨rfl, rfl, rfl, fun hm => hm⟩

/-- Witness for C8: the spec's own scenario, watermark 50 against max id 10. -/
theorem validate_state_resets_watermark_witness :
    FMClient.validate_state (Except.ok 10) ⟨50, "L50", 3, 4⟩ =
      (⟨0, "", 3, 4⟩, true) ∧
    (FMClient.validate_state (Except.ok 10) ⟨50, "L50", 3, 4⟩).1.last_music_id = 0 ∧
    (FMClient.validate_state (Except.ok 10) ⟨50, "L50", 3, 4⟩).1.last_music_link = "" ∧
    ((0 : Int) ≤ 10 →
      (FMClient.validate_state (Except.ok 10) ⟨50, "L50", 3, 4⟩).1.last_music_id ≤ 10) :=
  validate_state_resets_watermark ⟨50, "L50", 3, 4⟩ 10 (by decide)

/-- C2: for every parsed argument vector, `cli.main` constructs `FMClient`
with keywords (`mysql_pool_size`, `status_watch_interval`,
`alert_check_interval`, `enable_tts`, `enable_duration_detect`) that
`FMClient.__init__` does not declare, so a `TypeError` is raised before the
client loop can start. -/
theorem cli_main_always_type_error (args : CliArgs) :
    cli_main args = Except.error PyErr.typeError := by
  have h : kwargsBind FMClient.initKwargs cliMainKwargs = false := by decide
  simp [cli_main, h]

/-- Witness for C2 at the parser's default argument vector. -/
theorem cli_main_always_type_error_witness :
    cli_main ⟨"client_state.json", 3, 180, 1, 1, 2, 1, false, false,
      "", 3306, "", "", "", 10, 3⟩ = Except.error PyErr.typeError :=
  cli_main_always_type_error _

/-- C7: whenever the watermark-based AI-alert handler fetches an alert with a
positive id and the speak attempt succeeds (at least one segment spoken), the
handler produces exactly the trace speak-then-acknowledge-then-persist: the
acknowledge runs exactly once, for that alert's id, only after the speak
completed, and the persisted state carries `last_ai_alert_id` equal to the
alert's id. -/
theorem handle_ai_alerts_ack_after_success (a : AlertRow) (spoken : Nat)
    (st : ClientState) (hid : a.id > 0) (hs : 1 ≤ spoken) :
    FMClient.handle_ai_alerts (Except.ok (some a)) spoken st =
      Except.ok ({ st with last_ai_alert_id := a.id }, true,
        [Ev.speak a.message spoken, Ev.ackAi a.id,
         Ev.saveState { st with last_ai_alert_id := a.id }]) ∧
    ([Ev.speak a.message spoken, Ev.ackAi a.id,
      Ev.saveState { st with last_ai_alert_id := a.id }].count (Ev.ackAi a.id)) = 1 ∧
    ({ st with last_ai_alert_id := a.id } : ClientState).last_ai_alert_id = a.id := by
  have hns : ¬ spoken ≤ 0 := by omega
  constructor
  · simp only [FMClient.handle_ai_alerts]
    rw [if_pos hid, if_neg hns]
  constructor
  · simp [List.count_cons, List.count_nil]
  · rfl

/-- Witness for C7: the spec's scenario, a successful speak of alert id 7. -/
theorem handle_ai_alerts_ack_after_success_witness :
    FMClient.handle_ai_alerts (Except.ok (some ⟨7, "hello", "warn"⟩)) 1 st0 =
      Except.ok (⟨0, "", 7, 0⟩, true,
        [Ev.speak "hello" 1, Ev.ackAi 7, Ev.saveState ⟨0, "", 7, 0⟩]) :=
  (handle_ai_alerts_ack_after_success ⟨7, "hello", "warn"⟩ 1 st0 (by decide) (by decide)).1

/-- C1: for every music item whose (id, trimmed link) differs from the
controller's current item — including the first track of every run, when the
`_current_music` attribute does not exist yet — `play_music` raises a
`TypeError` at the `StreamPlayer.start` call (which passes the undeclared
`position` keyword) before any playback starts, and the path that advances
`last_music_id` is never reached: the client state is returned unchanged. -/
theorem play_music_new_track_raises_type_error
    (music_id default_duration : Int) (probe : Option Int) (now : Int)
    (current : Option MusicRow) (st : ClientState) (m : MusicRow) (envs : List TickEnv)
    (h : current = none ∨ FMClient.same_music current (some m) = false) :
    (FMClient.play_music music_id default_duration probe now current st m envs).exitKind
      = PMExit.raised PyErr.typeError ∧
    (FMClient.play_music music_id default_duration probe now current st m envs).state = st ∧
    hasPlayerStart
      (FMClient.play_music music_id default_duration probe now current st m envs).events
      = false := by
  have hcond : (current.isNone || ! FMClient.same_music current (some m)) = true := by
    rcases h with h | h
    · rw [h]; rfl
    · simp [h]
  have htr := resolve_duration_trace music_id default_duration m probe
  simp only [FMClient.play_music, hcond, if_true, playerStartCall_err, hasPlayerStart,
    List.any_append]
  refine ⟨trivial, trivial, ?_⟩
  rw [hasPlayerStart] at htr
  simp [htr.1, isPlayerStartEv]

/-- Witness for C1: the very first track of a run (no current item yet). -/
theorem play_music_new_track_raises_type_error_witness :
    (FMClient.play_music 1 180 none 0 none st0 row1 []).exitKind
      = PMExit.raised PyErr.typeError ∧
    (FMClient.play_music 1 180 none 0 none st0 row1 []).state = st0 ∧
    hasPlayerStart (FMClient.play_music 1 180 none 0 none st0 row1 []).events = false :=
  play_music_new_track_raises_type_error 1 180 none 0 none st0 row1 [] (Or.inl rfl)

/-- C6 counterexample: in fixed-row mode (`music_id = 1`) with the row's
duration absent, `_resolve_duration` DOES probe the external resolver
(the `probeDuration` event), contradicting "the external resolver is probed
only when detection is enabled and the client is in sequential mode" —
`FMClient` has no detection toggle at all and the mode does not guard the
probe.  (The track is still continuous here only because the probe itself
answered unknown.) -/
theorem resolve_duration_fixed_mode_probe_cex :
    FMClient.resolve_duration 1 180 row1 none = (none, [Ev.probeDuration "L1"]) ∧
    (FMClient.resolve_duration 1 180 row1 none).2.any
      (fun e => e == Ev.probeDuration "L1") = true := by
  exact ⟨rfl, rfl⟩

/-- C6 amended: duration resolution prefers the duration stored on the music
row; when it is absent the external resolver is probed unconditionally — in
fixed-row mode as well as sequential mode, there being no detection toggle —
and the configured default duration is applied only in sequential mode
(`music_id ≤ 0`); hence in fixed-row mode a track whose row duration is absent
and whose probe answer is unknown is treated as continuous (no planned end). -/
theorem resolve_duration_amended (music_id default_duration : Int) (m : MusicRow)
    (probe : Option Int) :
    (∀ d, m.duration_seconds = some d →
      FMClient.resolve_duration music_id default_duration m probe = (some d, [])) ∧
    (m.duration_seconds = none →
      (FMClient.resolve_duration music_id default_duration m probe).2
        = [Ev.probeDuration m.link]) ∧
    (m.duration_seconds = none → ∀ d, probe = some d →
      (FMClient.resolve_duration music_id default_duration m probe).1 = some d) ∧
    (m.duration_seconds = none → probe = none → music_id ≤ 0 →
      (FMClient.resolve_duration music_id default_duration m probe).1
        = some default_duration) ∧
    (m.duration_seconds = none → probe = none → 0 < music_id →
      (FMClient.resolve_duration music_id default_duration m probe).1 = none) := by
  refine ⟨fun d hd => ?_, fun hn => ?_, fun hn d hp => ?_, fun hn hp hm => ?_,
    fun hn hp hm => ?_⟩
  · simp [FMClient.resolve_duration, hd]
  · cases hpr : probe <;> simp [FMClient.resolve_duration, hn, hpr]
  · simp [FMClient.resolve_duration, hn, hp]
  · simp [FMClient.resolve_duration, hn, hp, hm]
  · have : ¬ music_id ≤ 0 := by omega
    simp [FMClient.resolve_duration, hn, hp, this]

/-- Witness for C6 amended: the spec's fixed-row scenario (id=1, link "L1",
row duration absent, probe unknown) yields a continuous track after probing. -/
theorem resolve_duration_amended_witness :
    (FMClient.resolve_duration 1 180 row1 none).2 = [Ev.probeDuration "L1"] ∧
    (FMClient.resolve_duration 1 180 row1 none).1 = none :=
  ⟨(resolve_duration_amended 1 180 row1 none).2.1 rfl,
   (resolve_duration_amended 1 180 row1 none).2.2.2.2 rfl rfl (by decide)⟩

/-- Fixture: a tick environment in which the enable gate is off. -/
def envGateOff : TickEnv := ⟨0, false, none, none, none, 0, none, 0, none, 0⟩

/-- While every observed iteration has the gate off, the play loop stops at
its first tick (or runs out of observations), starts nothing and leaves the
client state untouched. -/
theorem play_loop_gate_off (music_id default_duration : Int) (envs : List TickEnv)
    (ls : PlayLoopSt) (hgate : ∀ e ∈ envs, e.audio_allowed = false) :
    hasPlayerStart (FMClient.play_loop music_id default_duration envs ls).events = false ∧
    (FMClient.play_loop music_id default_duration envs ls).events.any isStartAttempt
      = false ∧
    (FMClient.play_loop music_id default_duration envs ls).state = ls.state := by
  cases envs with
  | nil => simp [FMClient.play_loop, hasPlayerStart]
  | cons e rest =>
    have he : e.audio_allowed = false := hgate e (by simp)
    simp only [FMClient.play_loop, FMClient.play_tick, he]
    simp [hasPlayerStart, isPlayerStartEv, isStartAttempt]

/-- C4 counterexample: invoking the playback step for a fresh track while the
enable gate is disabled still issues a call to `StreamPlayer.start` (main.py
line 541 runs before the first gate check at line 550), so "zero calls to the
start-playback operation occur" fails; the call raises `TypeError` at keyword
binding, hence no playback begins and the state is unchanged. -/
theorem play_music_gate_off_start_attempt_cex :
    envGateOff.audio_allowed = false ∧
    (FMClient.play_music 1 180 none 0 none st0 row1 [envGateOff]).events.any isStartAttempt
      = true ∧
    (FMClient.play_music 1 180 none 0 none st0 row1 [envGateOff]).events
      = [Ev.probeDuration "L1",
         Ev.startAttempt "L1" 100 ["volume", "position"] 0] := by
  refine ⟨rfl, ?_, ?_⟩ <;> decide

/-- C4 amended: while the enable gate is disabled, invoking the playback step
never lets the start-playback operation execute and never advances
`last_music_id`; however, when the given item differs from the controller's
current item the step does issue one start call before any gate check — that
call fails at keyword binding with a `TypeError`.  When the item matches the
current item, the first gate check stops playback with no start call at all. -/
theorem play_music_gate_off_no_start_no_advance
    (music_id default_duration : Int) (probe : Option Int) (now : Int)
    (current : Option MusicRow) (st : ClientState) (m : MusicRow) (envs : List TickEnv)
    (hgate : ∀ e ∈ envs, e.audio_allowed = false) :
    hasPlayerStart
      (FMClient.play_music music_id default_duration probe now current st m envs).events
      = false ∧
    (FMClient.play_music music_id default_duration probe now current st m envs).state.last_music_id = st.last_music_id ∧
    ((current.isNone || ! FMClient.same_music current (some m)) = true →
      (FMClient.play_music music_id default_duration probe now current st m envs).events.any isStartAttempt = true) ∧
    ((current.isNone || ! FMClient.same_music current (some m)) = false →
      (FMClient.play_music music_id default_duration probe now current st m envs).events.any isStartAttempt = false) := by
  have htr := resolve_duration_trace music_id default_duration m probe
  rw [hasPlayerStart] at htr
  cases hcond : (current.isNone || ! FMClient.same_music current (some m)) with
  | true =>
    have heq : FMClient.play_music music_id default_duration probe now current st m envs =
        ⟨PMExit.raised PyErr.typeError, st, current,
          (FMClient.resolve_duration music_id default_duration m probe).2 ++
            [Ev.startAttempt m.link music_volume_normal playMusicStartCallKwargs 0]⟩ := by
      simp only [FMClient.play_music, hcond, if_true, playerStartCall_err]
    rw [heq]
    refine ⟨?_, rfl, fun _ => ?_, fun hf => absurd hf (by decide)⟩
    · rw [hasPlayerStart, List.any_append, htr.1]
      simp [isPlayerStartEv]
    · rw [List.any_append, htr.2]
      simp [isStartAttempt]
  | false =>
    have hlp := play_loop_gate_off music_id default_duration envs
      ⟨m, (FMClient.resolve_duration music_id default_duration m probe).1, 0, now - 0,
        current, st⟩ hgate
    rw [hasPlayerStart] at hlp
    have heq : FMClient.play_music music_id default_duration probe now current st m envs =
        ⟨(FMClient.play_loop music_id default_duration envs
            ⟨m, (FMClient.resolve_duration music_id default_duration m probe).1, 0,
              now - 0, current, st⟩).exitKind,
         (FMClient.play_loop music_id default_duration envs
            ⟨m, (FMClient.resolve_duration music_id default_duration m probe).1, 0,
              now - 0, current, st⟩).state,
         (FMClient.play_loop music_id default_duration envs
            ⟨m, (FMClient.resolve_duration music_id default_duration m probe).1, 0,
              now - 0, current, st⟩).current,
         (FMClient.resolve_duration music_id default_duration m probe).2 ++
           (FMClient.play_loop music_id default_duration envs
              ⟨m, (FMClient.resolve_duration music_id default_duration m probe).1, 0,
                now - 0, current, st⟩).events⟩ := by
      simp only [FMClient.play_music, hcond, Bool.false_eq_true, if_false]
    rw [heq]
    refine ⟨?_, ?_, fun ht => absurd ht (by decide), fun _ => ?_⟩
    · rw [hasPlayerStart, List.any_append, htr.1, hlp.1]
      rfl
    · rw [hlp.2.2]
    · rw [List.any_append, htr.2, hlp.2.1]
      rfl

/-- Witness for C4 amended: a fresh-track invocation under a disabled gate. -/
theorem play_music_gate_off_no_start_no_advance_witness :
    hasPlayerStart (FMClient.play_music 1 180 none 0 none st0 row1 [envGateOff]).events
      = false ∧
    (FMClient.play_music 1 180 none 0 none st0 row1 [envGateOff]).state.last_music_id
      = st0.last_music_id :=
  ⟨(play_music_gate_off_no_start_no_advance 1 180 none 0 none st0 row1 [envGateOff]
      (by intro e he; simp at he; rw [he]; rfl)).1,
   (play_music_gate_off_no_start_no_advance 1 180 none 0 none st0 row1 [envGateOff]
      (by intro e he; simp at he; rw [he]; rfl)).2.1⟩

/-- Fixture: a user alert in the fixed slot id=1. -/
def alertHello : AlertRow := ⟨1, "hello", ""⟩

/-- Fixture: loop state of an active continuous playback of `row1` that
started at time 0. -/
def lsPlaying : PlayLoopSt := ⟨row1, none, 0, 0, some row1, st0⟩

/-- Fixture: a tick at time 10 with gate on and a pending user alert. -/
def envUserAlert : TickEnv := ⟨10, true, none, none, some alertHello, 1, none, 0, none, 0⟩

/-- C5 counterexample: a pending user alert observed at elapsed time 10 stops
playback and is spoken, but the music is then NOT restarted from the
beginning: the restart call is issued at the saved resume position 10 (not 0)
— main.py lines 586 and 598 — and that call raises `TypeError` (undeclared
`position` keyword), so no playback start occurs at all. -/
theorem play_tick_user_alert_nonzero_resume_cex :
    FMClient.play_tick 1 180 envUserAlert lsPlaying =
      TickRes.raised PyErr.typeError ⟨row1, none, 10, 0, some row1, st0⟩
        [Ev.playerStop, Ev.speak "hello" 1, Ev.ackUser 1,
         Ev.startAttempt "L1" 100 ["volume", "position"] 10] ∧
    (10 : Int) ≠ 0 ∧
    hasPlayerStart [Ev.playerStop, Ev.speak "hello" 1, Ev.ackUser 1,
      Ev.startAttempt "L1" 100 ["volume", "position"] 10] = false := by
  refine ⟨by decide, by decide, by decide⟩

/-- C5 amended: for every pending user alert (fixed slot id=1, non-blank
message) observed during active playback with no pending music change and no
planned duration, the playback is fully stopped and the alert is spoken and
acknowledged; the code then attempts to restart the same track at the saved
resume position (the elapsed playback time, not position zero), and that
attempt raises `TypeError` because `StreamPlayer.start` does not declare
`position`, so `play_music` aborts without restarting playback. -/
theorem play_tick_user_alert_stop_speak_resume_attempt
    (music_id default_duration : Int) (env : TickEnv) (ls : PlayLoopSt) (a : AlertRow)
    (hgate : env.audio_allowed = true) (hnc : env.music_change = none)
    (hnp : ls.planned = none) (hua : env.user_alert = some a)
    (hid : a.id = 1) (hmsg : pyStrip a.message ≠ "") :
    FMClient.play_tick music_id default_duration env ls =
      TickRes.raised PyErr.typeError
        { ls with resume_position := env.now - ls.started_at + ls.resume_position }
        [Ev.playerStop, Ev.speak a.message env.user_speak, Ev.ackUser a.id,
         Ev.startAttempt ls.music.link music_volume_normal playMusicStartCallKwargs
           (env.now - ls.started_at + ls.resume_position)] := by
  have hmb : (pyStrip a.message != "") = true := by
    simp [bne_iff_ne]
    exact hmsg
  simp [FMClient.play_tick, hgate, hnc, FMClient.play_tick_expiry, hnp,
    FMClient.play_tick_user, hua, hid, hmb, playerStartCall_err]

/-- Witness for C5 amended at the concrete fixture tick. -/
theorem play_tick_user_alert_stop_speak_resume_attempt_witness :
    FMClient.play_tick 1 180 envUserAlert lsPlaying =
      TickRes.raised PyErr.typeError
        { lsPlaying with
            resume_position :=
              envUserAlert.now - lsPlaying.started_at + lsPlaying.resume_position }
        [Ev.playerStop, Ev.speak alertHello.message envUserAlert.user_speak,
         Ev.ackUser alertHello.id,
         Ev.startAttempt lsPlaying.music.link music_volume_normal playMusicStartCallKwargs
           (envUserAlert.now - lsPlaying.started_at + lsPlaying.resume_position)] :=
  play_tick_user_alert_stop_speak_resume_attempt 1 180 envUserAlert lsPlaying alertHello
    rfl rfl rfl rfl rfl (by decide)

/-- Fixture: a run-loop iteration with the gate on whose user-alert fetch
raises a database error. -/
def runEnvDbFail : RunEnv :=
  ⟨true, Except.error PyErr.dbError, 0, Except.ok none, 0, Except.ok none, 0,
   none, Except.ok none, Except.ok none, Except.ok none, none, 0, []⟩

/-- Fixture: run-loop fields of a fresh client. -/
def rs0 : RunSt := ⟨none, st0⟩

/-- C3 counterexample: a transient database failure raised while fetching the
next user alert inside `handle_user_alerts` is NOT caught at the call site —
it propagates out of the run-loop iteration, past the `except
KeyboardInterrupt`-only handler (main.py lines 694-707), terminating the loop
and the process, instead of being treated as "no data this tick". -/
theorem run_tick_db_failure_crashes_cex :
    runEnvDbFail.audio_allowed = true ∧
    FMClient.run_tick 1 180 runEnvDbFail rs0 = Except.error PyErr.dbError := by
  exact ⟨rfl, rfl⟩

/-- C3 amended: in a gate-enabled run-loop iteration, a database failure
raised while fetching the next user alert (`handle_user_alerts`), the next
watermark AI alert (`handle_ai_alerts`), the fixed-row music row
(`get_music_by_id`) or the sequential next music row
(`get_next_music_after`) propagates uncaught — the loop's only handler is
`except KeyboardInterrupt` — and terminates the loop instead of being treated
as "no data this tick"; by contrast a failure in the latest-music fallback,
and any exception raised by the `play_music` call, are caught and the
iteration completes normally. -/
theorem run_tick_db_error_propagation
    (music_id default_duration : Int) (env : RunEnv) (rs : RunSt) (e : PyErr)
    (hg : env.audio_allowed = true) :
    (env.fetch_user = Except.error e →
      FMClient.run_tick music_id default_duration env rs = Except.error e) ∧
    ((∃ r, FMClient.handle_user_alerts env.fetch_user env.user_speak env.fetch_ai_fixed
        env.ai_fixed_speak = Except.ok r) →
      env.fetch_ai_wm = Except.error e →
      FMClient.run_tick music_id default_duration env rs = Except.error e) ∧
    ((∃ r, FMClient.handle_user_alerts env.fetch_user env.user_speak env.fetch_ai_fixed
        env.ai_fixed_speak = Except.ok r) →
      (∃ r2, FMClient.handle_ai_alerts env.fetch_ai_wm env.ai_wm_speak rs.state
        = Except.ok r2) →
      0 < music_id → env.desired_music = none → env.music_by_id = Except.error e →
      FMClient.run_tick music_id default_duration env rs = Except.error e) ∧
    ((∃ r, FMClient.handle_user_alerts env.fetch_user env.user_speak env.fetch_ai_fixed
        env.ai_fixed_speak = Except.ok r) →
      (∃ r2, FMClient.handle_ai_alerts env.fetch_ai_wm env.ai_wm_speak rs.state
        = Except.ok r2) →
      music_id ≤ 0 → env.next_music = Except.error e →
      FMClient.run_tick music_id default_duration env rs = Except.error e) ∧
    ((∃ r, FMClient.handle_user_alerts env.fetch_user env.user_speak env.fetch_ai_fixed
        env.ai_fixed_speak = Except.ok r) →
      (∃ r2, FMClient.handle_ai_alerts env.fetch_ai_wm env.ai_wm_speak rs.state
        = Except.ok r2) →
      music_id ≤ 0 → env.next_music = Except.ok none →
      env.latest_music = Except.error e →
      (∃ v, FMClient.run_tick music_id default_duration env rs = Except.ok v)) ∧
    ((∃ r, FMClient.handle_user_alerts env.fetch_user env.user_speak env.fetch_ai_fixed
        env.ai_fixed_speak = Except.ok r) →
      (∃ r2, FMClient.handle_ai_alerts env.fetch_ai_wm env.ai_wm_speak rs.state
        = Except.ok r2) →
      ∀ m : MusicRow, env.desired_music = some m → 0 < music_id →
      m.id > 0 → m.link ≠ "" →
      (∃ v, FMClient.run_tick music_id default_duration env rs = Except.ok v)) := by
  refine ⟨fun hf => ?_, ?_, ?_, ?_, ?_, ?_⟩
  · simp [FMClient.run_tick, hg, FMClient.handle_user_alerts, hf]
  · rintro ⟨⟨b, evs⟩, hr⟩ hw
    simp [FMClient.run_tick, hg, hr, FMClient.handle_ai_alerts, hw]
  · rintro ⟨⟨b, evs⟩, hr⟩ ⟨⟨st1, b2, evs2⟩, hr2⟩ hm hd hmb
    simp [FMClient.run_tick, hg, hr, hr2, hm, hd, hmb]
  · rintro ⟨⟨b, evs⟩, hr⟩ ⟨⟨st1, b2, evs2⟩, hr2⟩ hm hn
    have hm2 : ¬ music_id > 0 := by omega
    simp [FMClient.run_tick, FMClient.get_next_music, hg, hr, hr2, hm2, hn]
  · rintro ⟨⟨b, evs⟩, hr⟩ ⟨⟨st1, b2, evs2⟩, hr2⟩ hm hn hl
    have hm2 : ¬ music_id > 0 := by omega
    refine ⟨(⟨rs.current, st1⟩, evs ++ evs2), ?_⟩
    simp [FMClient.run_tick, FMClient.get_next_music, hg, hr, hr2, hm2, hn, hl]
  · rintro ⟨⟨b, evs⟩, hr⟩ ⟨⟨st1, b2, evs2⟩, hr2⟩ m hd hm hid hlink
    refine ⟨(⟨(FMClient.play_music music_id default_duration env.entry_probe env.entry_now
        rs.current st1 m env.play_envs).current,
      (FMClient.play_music music_id default_duration env.entry_probe env.entry_now
        rs.current st1 m env.play_envs).state⟩,
      evs ++ evs2 ++ (FMClient.play_music music_id default_duration env.entry_probe
        env.entry_now rs.current st1 m env.play_envs).events), ?_⟩
    simp [FMClient.run_tick, hg, hr, hr2, hd, hm, hid, hlink]

/-- Fixture: a run-loop iteration whose watermark AI-alert fetch raises. -/
def runEnvAiFail : RunEnv :=
  ⟨true, Except.ok none, 0, Except.ok none, 0, Except.error PyErr.dbError, 0,
   none, Except.ok none, Except.ok none, Except.ok none, none, 0, []⟩

/-- Fixture: a run-loop iteration whose fixed-row music fetch raises. -/
def runEnvMusicFail : RunEnv :=
  ⟨true, Except.ok none, 0, Except.ok none, 0, Except.ok none, 0,
   none, Except.error PyErr.dbError, Except.ok none, Except.ok none, none, 0, []⟩

/-- Fixture: a run-loop iteration whose sequential next-music fetch raises. -/
def runEnvNextFail : RunEnv :=
  ⟨true, Except.ok none, 0, Except.ok none, 0, Except.ok none, 0,
   none, Except.ok none, Except.error PyErr.dbError, Except.ok none, none, 0, []⟩

/-- Witness for C3 amended: each uncaught fetch site crashes a concrete
gate-enabled iteration — user alert, watermark AI alert, fixed-row music row,
and sequential next-music row. -/
theorem run_tick_db_error_propagation_witness :
    FMClient.run_tick 1 180 runEnvDbFail rs0 = Except.error PyErr.dbError ∧
    FMClient.run_tick 1 180 runEnvAiFail rs0 = Except.error PyErr.dbError ∧
    FMClient.run_tick 1 180 runEnvMusicFail rs0 = Except.error PyErr.dbError ∧
    FMClient.run_tick 0 180 runEnvNextFail rs0 = Except.error PyErr.dbError :=
  ⟨(run_tick_db_error_propagation 1 180 runEnvDbFail rs0 PyErr.dbError rfl).1 rfl,
   (run_tick_db_error_propagation 1 180 runEnvAiFail rs0 PyErr.dbError rfl).2.1
     ⟨(false, []), rfl⟩ rfl,
   (run_tick_db_error_propagation 1 180 runEnvMusicFail rs0 PyErr.dbError rfl).2.2.1
     ⟨(false, []), rfl⟩ ⟨(st0, false, []), rfl⟩ (by decide) rfl rfl,
   (run_tick_db_error_propagation 0 180 runEnvNextFail rs0 PyErr.dbError rfl).2.2.2.1
     ⟨(false, []), rfl⟩ ⟨(st0, false, []), rfl⟩ (by decide) rfl⟩
